import Mathlib

/-!
Verification of the sundew honeypot core against its specification.

The Python source is shallowly embedded: pure functions become Lean
functions over exact rationals (Python floats are modelled by `ℚ`),
JSON values become the inductive `JVal`, and runtime nondeterminism
(uuids, wall-clock timestamps) becomes explicit parameters.  Each
definition is transcribed from the named source function.
-/

namespace Sundew

/-- JSON-like values, modelling the Python dict/list/str/number/bool/None
universe that the trap handlers build and parse. -/
inductive JVal where
  | null : JVal
  | bool (b : Bool) : JVal
  | num (q : ℚ) : JVal
  | str (s : String) : JVal
  | arr (xs : List JVal) : JVal
  | obj (kvs : List (String × JVal)) : JVal

/-- Lookup in a JSON object's key/value list, as Python `dict.get(k)`:
`none` when the key is absent. -/
def dictGet (kvs : List (String × JVal)) (k : String) : Option JVal :=
  (kvs.find? (fun kv => kv.1 = k)).map (fun kv => kv.2)

/-- Traffic classes, from `models.AttackClassification`. -/
inductive AttackClassification where
  | unknown
  | human
  | automated
  | ai_assisted
  | ai_agent
deriving DecidableEq

/-- Authentication schemes, from `models.AuthScheme`, in declaration order
(the order `list(AuthScheme)` yields in the generator). -/
inductive AuthScheme where
  | bearer
  | api_key_header
  | api_key_query
  | basic
  | oauth2
deriving DecidableEq

/-- Classification thresholds and dispatch, transcribed from
`classify.classify`: a `ValueError` outside `[0,1]` becomes `Except.error`
(the Python message interpolates the offending score the same way). -/
def classify (composite_score : ℚ) : Except String AttackClassification :=
  if composite_score < 0 ∨ composite_score > 1 then
    Except.error ("Composite score must be between 0.0 and 1.0, got "
      ++ toString composite_score)
  else if composite_score < 3/10 then Except.ok AttackClassification.human
  else if composite_score < 6/10 then Except.ok AttackClassification.automated
  else if composite_score < 8/10 then Except.ok AttackClassification.ai_assisted
  else Except.ok AttackClassification.ai_agent

/-- Weighted composite score, transcribed from
`fingerprint.compute_composite_score` with the `_WEIGHTS` table inlined
(Python's float arithmetic is modelled exactly over `ℚ`). -/
def compute_composite_score (timing_regularity path_enumeration header_anomaly
    prompt_leakage mcp_behavior : ℚ) : ℚ :=
  let raw := 15/100 * timing_regularity + 20/100 * path_enumeration
    + 20/100 * header_anomaly + 20/100 * prompt_leakage + 25/100 * mcp_behavior
  max 0 (min 1 raw)

/-!  SHA-256, bytes and strings.  Python's `hashlib.sha256(...).hexdigest()`
is embedded as a concrete executable SHA-256 over byte lists (`Nat < 256`),
with 32-bit words as `Nat` reduced `% 2^32`.  -/

/-- Reduction of a machine word to 32 bits. -/
def w32 (x : Nat) : Nat := x % 4294967296

/-- Right rotation of a 32-bit word by `n` bits. -/
def rotr32 (n x : Nat) : Nat := w32 ((x >>> n) ||| (x <<< (32 - n)))

/-- SHA-256 big sigma 0. -/
def bsig0 (x : Nat) : Nat := rotr32 2 x ^^^ rotr32 13 x ^^^ rotr32 22 x

/-- SHA-256 big sigma 1. -/
def bsig1 (x : Nat) : Nat := rotr32 6 x ^^^ rotr32 11 x ^^^ rotr32 25 x

/-- SHA-256 small sigma 0. -/
def ssig0 (x : Nat) : Nat := rotr32 7 x ^^^ rotr32 18 x ^^^ (x >>> 3)

/-- SHA-256 small sigma 1. -/
def ssig1 (x : Nat) : Nat := rotr32 17 x ^^^ rotr32 19 x ^^^ (x >>> 10)

/-- SHA-256 round constants. -/
def sha256K : List Nat :=
  [1116352408, 1899447441, 3049323471, 3921009573,
   961987163, 1508970993, 2453635748, 2870763221,
   3624381080, 310598401, 607225278, 1426881987,
   1925078388, 2162078206, 2614888103, 3248222580,
   3835390401, 4022224774, 264347078, 604807628,
   770255983, 1249150122, 1555081692, 1996064986,
   2554220882, 2821834349, 2952996808, 3210313671,
   3336571891, 3584528711, 113926993, 338241895,
   666307205, 773529912, 1294757372, 1396182291,
   1695183700, 1986661051, 2177026350, 2456956037,
   2730485921, 2820302411, 3259730800, 3345764771,
   3516065817, 3600352804, 4094571909, 275423344,
   430227734, 506948616, 659060556, 883997877,
   958139571, 1322822218, 1537002063, 1747873779,
   1955562222, 2024104815, 2227730452, 2361852424,
   2428436474, 2756734187, 3204031479, 3329325298]

/-- SHA-256 initial hash values. -/
def sha256H0 : List Nat :=
  [1779033703, 3144134277, 1013904242, 2773480762,
   1359893119, 2600822924, 528734635, 1541459225]

/-- SHA-256 message padding: append `0x80`, zeros, and the 64-bit big-endian
bit length, reaching a multiple of 64 bytes. -/
def sha256Pad (msg : List Nat) : List Nat :=
  let bitLen := 8 * msg.length
  let padZeros := (64 - ((msg.length + 9) % 64)) % 64
  msg ++ [128] ++ List.replicate padZeros 0
    ++ [(bitLen >>> 56) % 256, (bitLen >>> 48) % 256, (bitLen >>> 40) % 256,
        (bitLen >>> 32) % 256, (bitLen >>> 24) % 256, (bitLen >>> 16) % 256,
        (bitLen >>> 8) % 256, bitLen % 256]

/-- Split into 64-byte chunks; the fuel argument (the list length suffices)
keeps the recursion structural so the kernel can evaluate it. -/
def chunksAux : Nat → List Nat → List (List Nat)
  | 0, _ => []
  | _ + 1, [] => []
  | fuel + 1, l@(_ :: _) => l.take 64 :: chunksAux fuel (l.drop 64)

/-- Split a padded message into its 64-byte chunks. -/
def chunks64 (l : List Nat) : List (List Nat) := chunksAux l.length l

/-- Group bytes into 32-bit big-endian words. -/
def bytesToWords : List Nat → List Nat
  | b0 :: b1 :: b2 :: b3 :: rest =>
      (b0 * 16777216 + b1 * 65536 + b2 * 256 + b3) :: bytesToWords rest
  | _ => []

/-- Extend the 16 chunk words to the 64-entry message schedule. -/
def sha256Schedule (ws : List Nat) : List Nat :=
  (List.range 48).foldl
    (fun acc _ =>
      let i := acc.length
      acc ++ [w32 (acc.getD (i - 16) 0 + ssig0 (acc.getD (i - 15) 0)
        + acc.getD (i - 7) 0 + ssig1 (acc.getD (i - 2) 0))])
    ws

/-- The eight working variables of the SHA-256 compression loop. -/
structure Sha256State where
  a : Nat
  b : Nat
  c : Nat
  d : Nat
  e : Nat
  f : Nat
  g : Nat
  h : Nat

/-- One round of the SHA-256 compression function on `(k, w)`. -/
def sha256Round (st : Sha256State) (kw : Nat × Nat) : Sha256State :=
  let ch := (st.e &&& st.f) ^^^ ((st.e ^^^ 4294967295) &&& st.g)
  let t1 := w32 (st.h + bsig1 st.e + ch + kw.1 + kw.2)
  let maj := (st.a &&& st.b) ^^^ (st.a &&& st.c) ^^^ (st.b &&& st.c)
  let t2 := w32 (bsig0 st.a + maj)
  ⟨w32 (t1 + t2), st.a, st.b, st.c, w32 (st.d + t1), st.e, st.f, st.g⟩

/-- Compress one 64-byte chunk into the running hash values. -/
def sha256Compress (hs : List Nat) (chunk : List Nat) : List Nat :=
  let ws := sha256Schedule (bytesToWords chunk)
  let init : Sha256State :=
    ⟨hs.getD 0 0, hs.getD 1 0, hs.getD 2 0, hs.getD 3 0,
     hs.getD 4 0, hs.getD 5 0, hs.getD 6 0, hs.getD 7 0⟩
  let fin := (List.zip sha256K ws).foldl sha256Round init
  [w32 (hs.getD 0 0 + fin.a), w32 (hs.getD 1 0 + fin.b),
   w32 (hs.getD 2 0 + fin.c), w32 (hs.getD 3 0 + fin.d),
   w32 (hs.getD 4 0 + fin.e), w32 (hs.getD 5 0 + fin.f),
   w32 (hs.getD 6 0 + fin.g), w32 (hs.getD 7 0 + fin.h)]

/-- SHA-256 digest of a byte string, as the eight 32-bit hash words. -/
def sha256Words (msg : List Nat) : List Nat :=
  (chunks64 (sha256Pad msg)).foldl sha256Compress sha256H0

/-- Big-endian bytes of a 32-bit word. -/
def wordBytes (x : Nat) : List Nat :=
  [(x >>> 24) % 256, (x >>> 16) % 256, (x >>> 8) % 256, x % 256]

/-- SHA-256 digest as its 32 bytes. -/
def sha256Bytes (msg : List Nat) : List Nat := (sha256Words msg).flatMap wordBytes

/-- Lowercase hexadecimal digits, as Python's `hexdigest` emits them. -/
def hexDigits : List Char := "0123456789abcdef".data

/-- Two lowercase hex characters of one byte. -/
def byteHex (b : Nat) : List Char :=
  [hexDigits.getD (b / 16 % 16) '0', hexDigits.getD (b % 16) '0']

/-- Python's `hashlib.sha256(msg).hexdigest()`. -/
def sha256Hex (msg : List Nat) : String := String.mk ((sha256Bytes msg).flatMap byteHex)

/-- UTF-8 encoding of one character, as byte values. -/
def utf8EncodeCharNat (c : Char) : List Nat :=
  let n := c.toNat
  if n < 128 then [n]
  else if n < 2048 then [192 + n / 64, 128 + n % 64]
  else if n < 65536 then [224 + n / 4096, 128 + n / 64 % 64, 128 + n % 64]
  else [240 + n / 262144, 128 + n / 4096 % 64, 128 + n / 64 % 64, 128 + n % 64]

/-- Python's `str.encode()`: the UTF-8 bytes of a string. -/
def utf8Bytes (s : String) : List Nat := s.data.flatMap utf8EncodeCharNat

/-- Python's slice `s[:n]`: the first `n` characters. -/
def strTake (s : String) (n : Nat) : String := String.mk (s.data.take n)

/-- Python's `s.startswith(p)` over characters. -/
def pyStartswith (s p : String) : Bool := p.data.isPrefixOf s.data

/-- Python's slice `s[n:]`: drop the first `n` characters. -/
def pyDrop (s : String) (n : Nat) : String := String.mk (s.data.drop n)

/-- Python's `sub in s`: `sub` occurs contiguously inside `s`. -/
def strContainsP (s sub : String) : Prop := sub.data <:+: s.data

instance strContainsPDec (s sub : String) : Decidable (strContainsP s sub) :=
  inferInstanceAs (Decidable (sub.data <:+: s.data))

/-!  The persona value object, from `models.Persona`.  -/

/-- Deployment identity, transcribed from `models.Persona` (field names as in
the source; `extra_headers` as an association list). -/
structure Persona where
  seed : Int
  company_name : String
  industry : String
  api_style : String
  framework_fingerprint : String
  error_style : String
  auth_scheme : AuthScheme
  data_theme : String
  response_latency_ms : Nat
  server_header : String
  endpoint_prefix : String
  extra_headers : List (String × String)
  mcp_server_name : String
  mcp_tool_prefix : String
deriving DecidableEq

namespace TrapsApi

/-- Canary minting, transcribed from `traps/api._generate_canary`:
`sha256(f"{persona.seed}:{persona.company_name}:{salt}".encode()).hexdigest()[:16]`. -/
def _generate_canary (persona : Persona) (salt : String) : String :=
  strTake (sha256Hex (utf8Bytes (toString persona.seed ++ ":"
    ++ persona.company_name ++ ":" ++ salt))) 16

/-- Auth-token response body, transcribed from `traps/api._generate_auth_token`.
The fresh `uuid.uuid4().hex` becomes the parameter `token_id` and the branch's
`time.strftime(...)` result becomes the parameter `time_str`. -/
def _generate_auth_token (persona : Persona) (token_id : String)
    (time_str : String) : List (String × JVal) :=
  let canary := _generate_canary persona ("auth:" ++ token_id)
  match persona.auth_scheme with
  | AuthScheme.oauth2 =>
      [("access_token", JVal.str ("eyJhbGciOiJSUzI1NiIsInR5cCI6IkpXVCJ9." ++ canary)),
       ("token_type", JVal.str "Bearer"),
       ("expires_in", JVal.num 3600),
       ("refresh_token", JVal.str ("rt_" ++ canary)),
       ("scope", JVal.str "read write")]
  | AuthScheme.bearer =>
      [("token", JVal.str ("sk-sundew-FAKE-" ++ canary)),
       ("type", JVal.str "bearer"),
       ("expires_at", JVal.str time_str)]
  | AuthScheme.api_key_header =>
      [("api_key", JVal.str ("ak_" ++ canary)),
       ("created_at", JVal.str time_str),
       ("name", JVal.str "generated-key")]
  | AuthScheme.api_key_query =>
      [("api_key", JVal.str ("ak_" ++ canary)),
       ("created_at", JVal.str time_str),
       ("name", JVal.str "generated-key")]
  | AuthScheme.basic =>
      [("session_id", JVal.str ("sess_" ++ canary)),
       ("authenticated", JVal.bool true),
       ("expires_at", JVal.str time_str)]

end TrapsApi

namespace TrapsMcp

/-- Canary minting, transcribed from `traps/mcp._generate_canary` (the same
derivation as the REST trap's, transcribed separately from its own source). -/
def _generate_canary (persona : Persona) (salt : String) : String :=
  strTake (sha256Hex (utf8Bytes (toString persona.seed ++ ":"
    ++ persona.company_name ++ ":" ++ salt))) 16

end TrapsMcp

/-- Canary derivation as the specification words it: the first 16 hex
characters of SHA-256 of `persona.seed ++ ":" ++ persona.company_name
++ ":" ++ salt`. -/
def canary_of_spec (persona : Persona) (salt : String) : String :=
  strTake (sha256Hex (utf8Bytes (toString persona.seed ++ ":"
    ++ persona.company_name ++ ":" ++ salt))) 16

/-- Names of the token-bearing fields across the auth-scheme response shapes
(the spec's "token strings"). -/
def token_field_names : List String :=
  ["access_token", "refresh_token", "token", "api_key", "session_id"]

/-- String values of the token-bearing fields of an auth response. -/
def tokenStrings (resp : List (String × JVal)) : List String :=
  resp.filterMap (fun kv =>
    if kv.1 ∈ token_field_names then
      match kv.2 with
      | JVal.str s => some s
      | _ => none
    else none)

/-- Concrete persona used for counterexamples and witnesses: OAuth2 scheme
(all other fields are plausible generator outputs). -/
def personaOauth : Persona :=
  ⟨42, "NovaLabs", "saas", "rest", "fastapi/0.109.0", "rfc7807",
   AuthScheme.oauth2, "users", 50, "nginx/1.24.0", "/api/v1", [],
   "data-api", "user_"⟩

/-- The same concrete persona with the bearer auth scheme. -/
def personaBearer : Persona :=
  { personaOauth with auth_scheme := AuthScheme.bearer }

/-- Tool names per industry, from `traps/mcp._TOOL_DEFS` (each entry's
`name` field; descriptions and input schemas are elided — no claim mentions
them).  An unknown industry yields the empty list, exactly as
`_TOOL_DEFS.get(persona.industry, {})` yields an empty name set in
`_handle_tools_call`. -/
def _TOOL_DEFS_names (industry : String) : List String :=
  if industry = "fintech" then
    ["query_transactions", "get_customer_profile", "read_config", "execute_sql"]
  else if industry = "saas" then
    ["list_users", "get_api_keys", "read_logs", "deploy_service"]
  else if industry = "healthcare" then
    ["get_patient_record", "query_prescriptions", "read_audit_log", "export_report"]
  else if industry = "ecommerce" then
    ["search_products", "get_order_details", "manage_inventory", "process_refund"]
  else if industry = "devtools" then
    ["list_repositories", "get_build_status", "read_secrets", "trigger_deploy"]
  else if industry = "logistics" then
    ["track_shipment", "get_warehouse_inventory", "optimize_route", "create_shipment"]
  else []

/-- Prefixed tool names for `tools/list`, from
`traps/mcp._get_tools_for_persona`: `_TOOL_DEFS.get(industry, _TOOL_DEFS["saas"])`
with the persona's tool prefix applied (the six known industries have
non-empty tool lists, so emptiness coincides with key absence). -/
def _get_tools_for_persona (persona : Persona) : List String :=
  let base := if (_TOOL_DEFS_names persona.industry).isEmpty then
    _TOOL_DEFS_names "saas" else _TOOL_DEFS_names persona.industry
  base.map (fun n => persona.mcp_tool_prefix ++ n)

/-- JSON-RPC 2.0 success envelope, from `traps/mcp._make_jsonrpc_response`. -/
def _make_jsonrpc_response (req_id : JVal) (result : JVal) : JVal :=
  JVal.obj [("jsonrpc", JVal.str "2.0"), ("id", req_id), ("result", result)]

/-- JSON-RPC 2.0 error envelope, from `traps/mcp._make_jsonrpc_error` (the
optional `data` argument is never passed at any call site and is elided). -/
def _make_jsonrpc_error (req_id : JVal) (code : Int) (message : String) : JVal :=
  JVal.obj [("jsonrpc", JVal.str "2.0"), ("id", req_id),
    ("error", JVal.obj [("code", JVal.num (code : ℚ)), ("message", JVal.str message)])]

/-- Result of running a Python handler body: a value, or an uncaught
exception escaping the handler (surfaced by the framework as an HTTP 500). -/
inductive PyResult where
  | ok (v : JVal)
  | raised

/-- The response of the `/mcp` endpoint: an HTTP response with a status and
a JSON body, or an exception escaping the handler. -/
inductive MCPAnswer where
  | resp (status : Nat) (body : JVal)
  | raised

/-- Python hashability of a JSON value: lists and dicts are unhashable, so
using one as a `dict.get` key raises `TypeError`. -/
def isHashable : JVal → Bool
  | JVal.arr _ => false
  | JVal.obj _ => false
  | _ => true

/-- Python's `str()` of the primitive JSON values as interpolated into the
"Method not found" message (numeric rendering approximated; no claim
depends on this text). -/
def pyShow : JVal → String
  | JVal.null => "None"
  | JVal.bool true => "True"
  | JVal.bool false => "False"
  | JVal.num q => toString q
  | JVal.str s => s
  | JVal.arr _ => ""
  | JVal.obj _ => ""

/-- MCP initialize result, from `traps/mcp._handle_initialize`. -/
def _handle_initialize (persona : Persona) (req_id : JVal) : JVal :=
  _make_jsonrpc_response req_id (JVal.obj
    [("protocolVersion", JVal.str "2024-11-05"),
     ("capabilities", JVal.obj [("tools", JVal.obj [("listChanged", JVal.bool false)])]),
     ("serverInfo", JVal.obj [("name", JVal.str persona.mcp_server_name),
       ("version", JVal.str "1.2.0")])])

/-- MCP tools/list result, from `traps/mcp._handle_tools_list`. -/
def _handle_tools_list (persona : Persona) (req_id : JVal) : JVal :=
  _make_jsonrpc_response req_id (JVal.obj
    [("tools", JVal.arr ((_get_tools_for_persona persona).map
      (fun n => JVal.obj [("name", JVal.str n)])))])

/-- Dispatch of `tools/call` on the `params["name"]` value, from the body of
`traps/mcp._handle_tools_call`: `tool_name_raw.startswith(prefix)` raises
`AttributeError` when the name value is not a string, escaping the handler
(`raised`). -/
def _tools_call_name (persona : Persona) (req_id : JVal) (name_v : JVal)
    (render : String → String) : PyResult :=
  match name_v with
  | JVal.str tool_name_raw =>
      let pre := persona.mcp_tool_prefix
      let tool_name := if pyStartswith tool_name_raw pre then
        pyDrop tool_name_raw pre.length else tool_name_raw
      if tool_name ∈ _TOOL_DEFS_names persona.industry then
        PyResult.ok (_make_jsonrpc_response req_id (JVal.obj
          [("content", JVal.arr [JVal.obj [("type", JVal.str "text"),
            ("text", JVal.str (render tool_name))]])]))
      else
        PyResult.ok (_make_jsonrpc_error req_id (-32602)
          ("Unknown tool: " ++ tool_name_raw))
  | _ => PyResult.raised

/-- MCP tools/call handling, from `traps/mcp._handle_tools_call`.  Faithful
to Python semantics: `params.get("name", "")` raises `AttributeError` when
`params` is not a dict, escaping the handler (`raised`). -/
def _handle_tools_call (persona : Persona) (req_id : JVal) (params : JVal)
    (render : String → String) : PyResult :=
  match params with
  | JVal.obj pkvs =>
      _tools_call_name persona req_id ((dictGet pkvs "name").getD (JVal.str ""))
        render
  | _ => PyResult.raised

/-- Dispatch of a string method, inlined in the source's `mcp_endpoint`
after the `notifications/initialized` check and the
`_METHOD_HANDLERS.get(method)` lookup. -/
def mcp_dispatch (persona : Persona) (req_id : JVal) (m : String)
    (params : JVal) (render : String → String) : MCPAnswer :=
  if m = "notifications/initialized" then MCPAnswer.resp 200 (JVal.obj [])
  else if m = "initialize" then
    MCPAnswer.resp 200 ( _handle_initialize persona req_id)
  else if m = "tools/list" then MCPAnswer.resp 200 (_handle_tools_list persona req_id)
  else if m = "tools/call" then
    match _handle_tools_call persona req_id params render with
    | PyResult.ok v => MCPAnswer.resp 200 v
    | PyResult.raised => MCPAnswer.raised
  else
    MCPAnswer.resp 200 (_make_jsonrpc_error req_id (-32601)
      ("Method not found: " ++ m))

/-- Routing on the `body["method"]` value, inlined in the source's
`mcp_endpoint`.  A list or dict method value is unhashable, so
`_METHOD_HANDLERS.get(method)` raises `TypeError` (`raised`); other
non-string methods find no handler and yield `-32601`. -/
def mcp_route (persona : Persona) (req_id method_v params : JVal)
    (render : String → String) : MCPAnswer :=
  match method_v with
  | JVal.str m => mcp_dispatch persona req_id m params render
  | JVal.arr _ => MCPAnswer.raised
  | JVal.obj _ => MCPAnswer.raised
  | v => MCPAnswer.resp 200 (_make_jsonrpc_error req_id (-32601)
      ("Method not found: " ++ pyShow v))

/-- The `/mcp` endpoint, from `traps/mcp.mcp_endpoint`.  `body = none`
models a request whose body `request.json()` fails to parse. -/
def mcp_endpoint (persona : Persona) (body : Option JVal)
    (render : String → String) : MCPAnswer :=
  match body with
  | none => MCPAnswer.resp 200 (_make_jsonrpc_error JVal.null (-32700) "Parse error")
  | some (JVal.obj kvs) =>
      mcp_route persona ((dictGet kvs "id").getD JVal.null)
        ((dictGet kvs "method").getD (JVal.str ""))
        ((dictGet kvs "params").getD (JVal.obj [])) render
  | some _ => MCPAnswer.resp 200 (_make_jsonrpc_error JVal.null (-32600) "Invalid Request")

/-!  Storage, from `storage.py` and `models.py`.  Timestamps are modelled
as `ℚ` seconds (the `isoformat`/`fromisoformat` pair round-trips aware
datetimes and is modelled as the identity); likewise the other column
encodings — `json.dumps`/`json.loads` on dicts and lists,
`model_dump_json`/`model_validate_json` on scores, `.value`/enum lookup on
classifications — are mutually inverse and modelled as the identity on the
typed value.  The one non-invertible step in `save_event` is
`json.dumps(event.body_json) if event.body_json else None`, which collapses
an empty dict (falsy in Python) to NULL; it is modelled explicitly.  -/

/-- Fingerprint scores, from `models.FingerprintScores` (seven floats,
each defaulting to `0.0`). -/
structure FingerprintScores where
  timing_regularity : ℚ
  header_anomaly : ℚ
  path_traversal : ℚ
  tool_calling_pattern : ℚ
  credential_stuffing : ℚ
  user_agent_score : ℚ
  composite : ℚ
deriving DecidableEq

/-- The default `FingerprintScores()` (all fields `0.0`). -/
def defaultFingerprintScores : FingerprintScores := ⟨0, 0, 0, 0, 0, 0, 0⟩

/-- A captured request, from `models.RequestEvent` (`body_json` is the
parsed JSON object or `None`; dicts as association lists). -/
structure RequestEvent where
  id : String
  timestamp : ℚ
  session_id : Option String
  source_ip : String
  source_port : Option Int
  method : String
  path : String
  query_params : List (String × String)
  headers : List (String × String)
  body : Option String
  body_json : Option (List (String × JVal))
  content_type : Option String
  user_agent : Option String
  fingerprint_scores : FingerprintScores
  classification : AttackClassification
  trap_type : Option String
  matched_endpoint : Option String
  response_status : Option Int
  notes : Option String

/-- A session, from `models.Session`. -/
structure Session where
  id : String
  source_ip : String
  first_seen : ℚ
  last_seen : ℚ
  request_count : Nat
  request_ids : List String
  classification : AttackClassification
  fingerprint_scores : FingerprintScores
  endpoints_hit : List String
  trap_types_triggered : List String
  tags : List String
  notes : Option String
deriving DecidableEq

/-- The column tuple `save_event` INSERTs, with each invertible encoding
modelled as the identity on the typed value.  `body_json` records the
Python truthiness conditional of `storage.save_event`. -/
structure EventRow where
  id : String
  timestamp : ℚ
  session_id : Option String
  source_ip : String
  source_port : Option Int
  method : String
  path : String
  query_params : List (String × String)
  headers : List (String × String)
  body : Option String
  body_json : Option (List (String × JVal))
  content_type : Option String
  user_agent : Option String
  fingerprint_scores : FingerprintScores
  classification : AttackClassification
  trap_type : Option String
  matched_endpoint : Option String
  response_status : Option Int
  notes : Option String

/-- Serialization of an event into its row, from `storage.save_event`:
`json.dumps(event.body_json) if event.body_json else None` stores NULL for
both `None` and the (falsy) empty dict. -/
def save_event_row (e : RequestEvent) : EventRow :=
  { id := e.id, timestamp := e.timestamp, session_id := e.session_id,
    source_ip := e.source_ip, source_port := e.source_port,
    method := e.method, path := e.path, query_params := e.query_params,
    headers := e.headers, body := e.body,
    body_json := match e.body_json with
      | some j => if j.isEmpty then none else some j
      | none => none,
    content_type := e.content_type, user_agent := e.user_agent,
    fingerprint_scores := e.fingerprint_scores,
    classification := e.classification, trap_type := e.trap_type,
    matched_endpoint := e.matched_endpoint,
    response_status := e.response_status, notes := e.notes }

/-- Deserialization of a row, from `storage._row_to_event`
(`json.loads(row["body_json"]) if row["body_json"] else None`). -/
def _row_to_event (r : EventRow) : RequestEvent :=
  { id := r.id, timestamp := r.timestamp, session_id := r.session_id,
    source_ip := r.source_ip, source_port := r.source_port,
    method := r.method, path := r.path, query_params := r.query_params,
    headers := r.headers, body := r.body, body_json := r.body_json,
    content_type := r.content_type, user_agent := r.user_agent,
    fingerprint_scores := r.fingerprint_scores,
    classification := r.classification, trap_type := r.trap_type,
    matched_endpoint := r.matched_endpoint,
    response_status := r.response_status, notes := r.notes }

/-- Serialization of a session into its row, from `storage.save_session`:
every column encoding is unconditional and invertible, so the row carries
the session's values unchanged. -/
def save_session_row (s : Session) : Session := s

/-- Deserialization of a session row, from `storage._row_to_session`. -/
def _row_to_session (s : Session) : Session := s

/-- Accumulator step selecting the row with the greatest `last_seen`, as the
`SELECT * FROM sessions WHERE source_ip = ? ORDER BY last_seen DESC LIMIT 1`
query in `storage.get_or_create_session` does (on equal `last_seen` SQLite's
order is unspecified; the earlier-stored row is kept here). -/
def pickLatest (acc : Option Session) (s : Session) : Option Session :=
  match acc with
  | none => some s
  | some b => if b.last_seen < s.last_seen then some s else some b

/-- The most recent session for an IP: the row the `LIMIT 1` query returns. -/
def latest_session_for (rows : List Session) (ip : String) : Option Session :=
  (rows.filter (fun s => s.source_ip = ip)).foldl pickLatest none

/-- Persisting a session, from `storage.save_session`'s
`INSERT OR REPLACE` by primary key `id`. -/
def save_session_db (rows : List Session) (s : Session) : List Session :=
  if rows.any (fun r => r.id = s.id) then
    rows.map (fun r => if r.id = s.id then s else r)
  else rows ++ [s]

/-- A fresh `Session(source_ip=...)`: the uuid hex id becomes the parameter
`freshId`, and both `first_seen` and `last_seen` default to the current
time; all other fields take their model defaults. -/
def newSession (freshId : String) (ip : String) (now : ℚ) : Session :=
  ⟨freshId, ip, now, now, 0, [], AttackClassification.unknown,
   defaultFingerprintScores, [], [], [], none⟩

/-- Continuation of `get_or_create_session` on the looked-up row: reuse
when `now - last_seen < 3600`, else create and persist a fresh session. -/
def get_or_create_aux (rows : List Session) (source_ip : String) (now : ℚ)
    (freshId : String) : Option Session → Session × List Session
  | some session =>
      if now - session.last_seen < 3600 then (session, rows)
      else
        (newSession freshId source_ip now,
         save_session_db rows (newSession freshId source_ip now))
  | none =>
      (newSession freshId source_ip now,
       save_session_db rows (newSession freshId source_ip now))

/-- Session lookup-or-create, from `storage.get_or_create_session`.
Returns the session and the resulting session table. -/
def get_or_create_session (rows : List Session) (source_ip : String)
    (now : ℚ) (freshId : String) : Session × List Session :=
  get_or_create_aux rows source_ip now freshId (latest_session_for rows source_ip)

/-- Concrete stored session for the C6 witness. -/
def sessionOld : Session :=
  ⟨"sOld", "203.0.113.5", 0, 0, 1, ["e1"], AttackClassification.unknown,
   defaultFingerprintScores, ["/robots.txt"], ["discovery"], [], none⟩

/-- Concrete event whose parsed JSON body is the empty object, for the C7
counterexample. -/
def eventEmptyJson : RequestEvent :=
  { id := "ev1", timestamp := 0, session_id := none, source_ip := "10.0.0.1",
    source_port := none, method := "POST", path := "/mcp", query_params := [],
    headers := [], body := some "{}", body_json := some [],
    content_type := some "application/json", user_agent := none,
    fingerprint_scores := defaultFingerprintScores,
    classification := AttackClassification.unknown, trap_type := some "mcp",
    matched_endpoint := none, response_status := some 200, notes := none }

/-- Concrete event (no JSON body) for the C7 witness. -/
def eventPlain : RequestEvent :=
  { eventEmptyJson with
    id := "ev2", body := none, body_json := none, content_type := none }

/-!  Discovery manifests, from `traps/discovery.py`.  -/

/-- Python's `s.lower()` (ASCII suffices for the generator's names). -/
def pyLower (s : String) : String := String.mk (s.data.map Char.toLower)

/-- Python's `s.replace(" ", "")`. -/
def removeSpaces (s : String) : String :=
  String.mk (s.data.filter (fun c => c ≠ ' '))

/-- Python's `s.rstrip("/")`: strip all trailing slashes. -/
def rstripSlash (s : String) : String :=
  String.mk ((s.data.reverse.dropWhile (fun c => c = '/')).reverse)

/-- Company domain, from `traps/discovery._company_domain`:
`company_name.lower().replace(" ", "") + ".example.com"`. -/
def _company_domain (persona : Persona) : String :=
  pyLower (removeSpaces persona.company_name) ++ ".example.com"

/-- Field lookup on a JSON object value. -/
def jGet (j : JVal) (k : String) : Option JVal :=
  match j with
  | JVal.obj kvs => dictGet kvs k
  | _ => none

/-- The `/.well-known/mcp.json` manifest, transcribed from
`traps/discovery._build_mcp_discovery`.  Note the authentication object is
a fixed bearer block (its `type` does not consult `persona.auth_scheme`). -/
def _build_mcp_discovery (persona : Persona) : JVal :=
  JVal.obj
    [("mcp_version", JVal.str "2024-11-05"),
     ("server", JVal.obj
       [("name", JVal.str persona.mcp_server_name),
        ("version", JVal.str "1.2.0"),
        ("description", JVal.str (persona.company_name ++ " internal "
          ++ persona.data_theme
          ++ " service accessible via Model Context Protocol."))]),
     ("endpoints", JVal.obj
       [("jsonrpc", JVal.str ("https://api." ++ _company_domain persona ++ "/mcp"))]),
     ("capabilities", JVal.obj
       [("tools", JVal.bool true), ("resources", JVal.bool false),
        ("prompts", JVal.bool false)]),
     ("authentication", JVal.obj
       [("type", JVal.str "bearer"),
        ("token_url", JVal.str ("https://api." ++ _company_domain persona
          ++ rstripSlash persona.endpoint_prefix ++ "/auth/token"))])]

/-!  Persona generation, from `persona/generator.py`.  `random.Random(seed)`
is a pseudo-random generator fully determined by the seed; its draws are
modelled as an abstract entropy stream `g : Int → Nat → Nat` (`g seed k` is
the k-th draw), threaded through the generation in source order.  Every
draw the source makes goes through this stream; no other entropy source
appears in `generate_persona`.  -/

def COMPANY_PREFIXES : List String :=
  ["Nova", "Apex", "Cirrus", "Vortex", "Helix", "Prism", "Nexus", "Vertex",
   "Stratos", "Cipher", "Pulse", "Quantum", "Atlas", "Zenith", "Flux",
   "Ember", "Cobalt", "Nimbus", "Drift", "Forge", "Lumen", "Crest"]

def COMPANY_SUFFIXES : List String :=
  ["Systems", "Labs", "AI", "Cloud", "Data", "Tech", "Platform", "IO",
   "Solutions", "Analytics", "Works", "Logic", "Base", "Hub", "Core",
   "Stack", "Flow", "Net", "API", "Ops"]

def INDUSTRIES : List String :=
  ["fintech", "saas", "healthcare", "ecommerce", "devtools", "logistics"]

def API_STYLES : List String := ["rest", "graphql", "jsonrpc"]

def FRAMEWORKS : List String :=
  ["express/4.18.2", "django/4.2", "rails/7.1", "spring-boot/3.2.0",
   "fastapi/0.109.0", "flask/3.0.0", "nestjs/10.3.0", "gin/1.9.1",
   "laravel/10.40", "actix-web/4.4"]

def ERROR_STYLES : List String := ["rfc7807", "simple_json", "html", "xml"]

/-- Data themes per industry, from `generator.DATA_THEMES` (total function;
`generate_persona` only looks up industries drawn from `INDUSTRIES`). -/
def DATA_THEMES (industry : String) : List String :=
  if industry = "fintech" then
    ["payments", "transactions", "accounts", "transfers", "invoices"]
  else if industry = "saas" then
    ["users", "workspaces", "subscriptions", "integrations", "webhooks"]
  else if industry = "healthcare" then
    ["patients", "appointments", "records", "prescriptions", "providers"]
  else if industry = "ecommerce" then
    ["products", "orders", "carts", "inventory", "reviews"]
  else if industry = "devtools" then
    ["repositories", "builds", "deployments", "pipelines", "artifacts"]
  else if industry = "logistics" then
    ["shipments", "warehouses", "routes", "tracking", "carriers"]
  else []

def SERVER_HEADERS : List String :=
  ["nginx/1.24.0", "nginx/1.25.3", "Apache/2.4.58", "cloudflare", "AmazonS3",
   "gws", "Microsoft-IIS/10.0", "openresty/1.25.3.1"]

def ENDPOINT_PREFIXES : List String :=
  ["/api/v1", "/api/v2", "/api/v3", "/v1", "/v2", "/rest/v1", "/api",
   "/service/api"]

def MCP_SERVER_NAMES : List String :=
  ["data-api", "platform-api", "core-service", "main-api", "backend",
   "service-hub", "api-gateway", "data-service"]

/-- MCP tool-prefix families per industry, from
`generator.MCP_TOOL_PREFIXES`. -/
def MCP_TOOL_PREFIXES (industry : String) : List String :=
  if industry = "fintech" then ["payment_", "txn_", "account_", "finance_"]
  else if industry = "saas" then ["workspace_", "user_", "tenant_", "app_"]
  else if industry = "healthcare" then
    ["patient_", "clinical_", "health_", "medical_"]
  else if industry = "ecommerce" then
    ["product_", "order_", "catalog_", "shop_"]
  else if industry = "devtools" then
    ["repo_", "build_", "deploy_", "pipeline_"]
  else if industry = "logistics" then
    ["shipment_", "route_", "warehouse_", "tracking_"]
  else []

/-- State of the seeded `random.Random` stream: the seed and how many draws
have been consumed. -/
structure Rng where
  seed : Int
  k : Nat

/-- One raw draw from the stream. -/
def rngNext (g : Int → Nat → Nat) (r : Rng) : Nat × Rng :=
  (g r.seed r.k, ⟨r.seed, r.k + 1⟩)

/-- Python's `rng.choice(xs)` (the source only calls it on non-empty
literal lists; the default is never used there). -/
def rngChoice {α : Type} (g : Int → Nat → Nat) (r : Rng) (xs : List α)
    (dflt : α) : α × Rng :=
  let n := rngNext g r
  (xs.getD (n.1 % xs.length) dflt, n.2)

/-- Python's `rng.randint(lo, hi)` (inclusive bounds). -/
def rngRandint (g : Int → Nat → Nat) (r : Rng) (lo hi : Nat) : Nat × Rng :=
  let n := rngNext g r
  (lo + n.1 % (hi + 1 - lo), n.2)

/-- Python's `rng.random()`: a rational in `[0, 1)` with 53 bits of
precision. -/
def rngRandom (g : Int → Nat → Nat) (r : Rng) : ℚ × Rng :=
  let n := rngNext g r
  (((n.1 % 9007199254740992 : Nat) : ℚ) / 9007199254740992, n.2)

/-- Extra response headers, transcribed from
`generator._generate_extra_headers` (the `industry` argument is accepted
and unused, as in the source): four probability draws, with a conditional
`choice` draw inside the second and third branches. -/
def _generate_extra_headers (g : Int → Nat → Nat) (r : Rng)
    (_industry : String) : List (String × String) × Rng :=
  let d1 := rngRandom g r
  let h1 : List (String × String) :=
    if d1.1 < 6/10 then [("X-Request-Id", "\x7b\x7brequest_id\x7d\x7d")] else []
  let d2 := rngRandom g d1.2
  let s2 : List (String × String) × Rng :=
    if d2.1 < 4/10 then
      let c := rngChoice g d2.2 [100, 500, 1000, 5000] 0
      ([("X-RateLimit-Limit", toString c.1)], c.2)
    else ([], d2.2)
  let d3 := rngRandom g s2.2
  let s3 : List (String × String) × Rng :=
    if d3.1 < 3/10 then
      let c := rngChoice g d3.2 ["Express", "Django", "Rails", "Spring"] ""
      ([("X-Powered-By", c.1)], c.2)
    else ([], d3.2)
  let d4 := rngRandom g s3.2
  let h4 : List (String × String) :=
    if d4.1 < 5/10 then
      [("X-Response-Time", "\x7b\x7bresponse_time_ms\x7d\x7dms")] else []
  (h1 ++ s2.1 ++ s3.1 ++ h4, d4.2)

/-- Persona generation, transcribed from `generator.generate_persona` with
the draws in source evaluation order: industry, company prefix and suffix,
data theme, endpoint prefix, tool prefix, then the constructor arguments
api_style, framework, error_style, auth_scheme (`list(AuthScheme)` in
declaration order), latency `randint(20, 300)`, server header, extra
headers, MCP server name. -/
def generate_persona (g : Int → Nat → Nat) (seed : Int) : Persona :=
  let r0 : Rng := ⟨seed, 0⟩
  let c1 := rngChoice g r0 INDUSTRIES "fintech"
  let industry := c1.1
  let c2 := rngChoice g c1.2 COMPANY_PREFIXES ""
  let c3 := rngChoice g c2.2 COMPANY_SUFFIXES ""
  let company_name := c2.1 ++ c3.1
  let c4 := rngChoice g c3.2 (DATA_THEMES industry) ""
  let c5 := rngChoice g c4.2 ENDPOINT_PREFIXES ""
  let c6 := rngChoice g c5.2 (MCP_TOOL_PREFIXES industry) ""
  let c7 := rngChoice g c6.2 API_STYLES ""
  let c8 := rngChoice g c7.2 FRAMEWORKS ""
  let c9 := rngChoice g c8.2 ERROR_STYLES ""
  let c10 := rngChoice g c9.2
    [AuthScheme.bearer, AuthScheme.api_key_header, AuthScheme.api_key_query,
     AuthScheme.basic, AuthScheme.oauth2] AuthScheme.bearer
  let c11 := rngRandint g c10.2 20 300
  let c12 := rngChoice g c11.2 SERVER_HEADERS ""
  let c13 := _generate_extra_headers g c12.2 industry
  let c14 := rngChoice g c13.2 MCP_SERVER_NAMES ""
  { seed := seed, company_name := company_name, industry := industry,
    api_style := c7.1, framework_fingerprint := c8.1, error_style := c9.1,
    auth_scheme := c10.1, data_theme := c4.1, response_latency_ms := c11.1,
    server_header := c12.1, endpoint_prefix := c5.1, extra_headers := c13.1,
    mcp_server_name := c14.1, mcp_tool_prefix := c6.1 }

/-!  Theorems.  -/

set_option maxRecDepth 100000

/-- Sanity check that the embedded SHA-256 is the real SHA-256: the FIPS
180-2 test vector for `"abc"`. -/
theorem sha256Hex_abc :
    sha256Hex (utf8Bytes "abc")
      = "ba7816bf8f01cfea414140de5dae2223b00361a396177a9cb410ff61f20015ad" := by
  decide

/-- Helper: `getD` stays inside the list when the default is in the list. -/
theorem getD_mem_of_mem {l : List Char} (n : Nat) {d : Char} (hd : d ∈ l) :
    l.getD n d ∈ l := by
  rcases Nat.lt_or_ge n l.length with h | h
  · rw [List.getD_eq_getElem l d h]
    exact List.getElem_mem h
  · rw [List.getD_eq_default l d h]
    exact hd

/-- Helper: the two characters of a byte's hex rendering are hex digits. -/
theorem byteHex_chars {b : Nat} {c : Char} (hc : c ∈ byteHex b) : c ∈ hexDigits := by
  rcases hc with _ | ⟨_, hc⟩
  · exact getD_mem_of_mem _ (by decide)
  · rcases hc with _ | ⟨_, hc⟩
    · exact getD_mem_of_mem _ (by decide)
    · cases hc

/-- Helper: every character of a SHA-256 hexdigest is a hex digit. -/
theorem sha256Hex_chars {msg : List Nat} {c : Char}
    (hc : c ∈ (sha256Hex msg).data) : c ∈ hexDigits := by
  rcases List.mem_flatMap.mp hc with ⟨b, _, hcb⟩
  exact byteHex_chars hcb

/-- Helper: every character of a canary token is a (lowercase) hex digit. -/
theorem canary_chars (p : Persona) (salt : String) {c : Char}
    (hc : c ∈ (TrapsApi._generate_canary p salt).data) : c ∈ hexDigits :=
  sha256Hex_chars (List.mem_of_mem_take hc)

/-- Helper: a word with a character that `s` lacks is not a substring of `s`. -/
theorem not_contains_of_char {s w : String} {c : Char} (hcw : c ∈ w.data)
    (hcs : c ∉ s.data) : ¬ strContainsP s w :=
  fun h => hcs (h.sublist.subset hcw)

/-- Helper: a character outside both a literal and the hex digits does not
occur in the literal followed by a hex string. -/
theorem not_mem_lit_hex {lit can : String} {c : Char}
    (hl : c ∉ lit.data) (hh : c ∉ hexDigits)
    (hcan : ∀ x ∈ can.data, x ∈ hexDigits) : c ∉ (lit ++ can).data := by
  rw [String.data_append]
  intro h
  rcases List.mem_append.mp h with h | h
  · exact hl h
  · exact hh (hcan _ h)

/-- Helper: a word is not contained in `lit ++ can` when one of its
characters is missing from `lit` and from the hex digits. -/
theorem not_contains_lit_hex (lit can w : String) (c : Char)
    (hcw : c ∈ w.data) (hl : c ∉ lit.data) (hh : c ∉ hexDigits)
    (hcan : ∀ x ∈ can.data, x ∈ hexDigits) : ¬ strContainsP (lit ++ can) w :=
  not_contains_of_char hcw (not_mem_lit_hex hl hh hcan)

/-- Helper: the right part of an appended string is one of its substrings. -/
theorem contains_append_right (a b : String) : strContainsP (a ++ b) b := by
  unfold strContainsP
  rw [String.data_append]
  exact (List.suffix_append a.data b.data).isInfix

/-- Helper: the bearer token embeds the literal marker `FAKE`. -/
theorem contains_fake_bearer (can : String) :
    strContainsP ("sk-sundew-FAKE-" ++ can) "FAKE" := by
  unfold strContainsP
  refine ⟨"sk-sundew-".data, "-".data ++ can.data, ?_⟩
  rw [String.data_append]
  have h : "sk-sundew-FAKE-".data
      = "sk-sundew-".data ++ ("FAKE".data ++ "-".data) := by decide
  rw [h]
  simp [List.append_assoc]

/-- C3: for every persona and salt the canary equals the first 16 hex
characters of SHA-256 of `seed ++ ":" ++ company_name ++ ":" ++ salt`
(`canary_of_spec` transcribes the spec's formula); the REST-trap and
MCP-trap implementations compute the same function, and both are pure,
hence deterministic in their inputs. -/
theorem generate_canary_correct (persona : Persona) (salt : String) :
    TrapsApi._generate_canary persona salt = canary_of_spec persona salt
  ∧ TrapsMcp._generate_canary persona salt = canary_of_spec persona salt
  ∧ TrapsApi._generate_canary persona salt = TrapsMcp._generate_canary persona salt :=
  ⟨rfl, rfl, rfl⟩

/-- C4 counterexample: with the OAuth2 auth scheme neither the access token
nor the refresh token contains the literal marker `FAKE` — the claim that
every token string contains `FAKE` fails. -/
theorem auth_token_fake_missing :
    ∃ t ∈ tokenStrings (TrapsApi._generate_auth_token personaOauth
      "cafebabe" "2026-01-01T00:00:00Z"), ¬ strContainsP t "FAKE" := by
  decide

/-- C4 as amended: every token string returned by the auth-token endpoint
contains the canary token, but the literal marker `FAKE` appears in a token
string precisely when the persona's auth scheme is `bearer`. -/
theorem auth_token_canary_and_fake (p : Persona) (token_id time_str : String) :
    (∀ t ∈ tokenStrings (TrapsApi._generate_auth_token p token_id time_str),
        strContainsP t (TrapsApi._generate_canary p ("auth:" ++ token_id)))
  ∧ ((∃ t ∈ tokenStrings (TrapsApi._generate_auth_token p token_id time_str),
        strContainsP t "FAKE") ↔ p.auth_scheme = AuthScheme.bearer) := by
  have hhex : ∀ x ∈ (TrapsApi._generate_canary p ("auth:" ++ token_id)).data,
      x ∈ hexDigits := fun x hx => canary_chars p ("auth:" ++ token_id) hx
  cases h : p.auth_scheme
  case oauth2 =>
    have hts : tokenStrings (TrapsApi._generate_auth_token p token_id time_str)
        = ["eyJhbGciOiJSUzI1NiIsInR5cCI6IkpXVCJ9."
            ++ TrapsApi._generate_canary p ("auth:" ++ token_id),
           "rt_" ++ TrapsApi._generate_canary p ("auth:" ++ token_id)] := by
      simp only [TrapsApi._generate_auth_token, h]
      rfl
    rw [hts]
    refine ⟨?_, ?_⟩
    · intro t ht
      rcases ht with _ | ⟨_, ht⟩
      · exact contains_append_right _ _
      · rcases ht with _ | ⟨_, ht⟩
        · exact contains_append_right _ _
        · cases ht
    · constructor
      · rintro ⟨t, ht, hf⟩
        exfalso
        rcases ht with _ | ⟨_, ht⟩
        · exact not_contains_lit_hex _ _ "FAKE" 'F' (by decide) (by decide)
            (by decide) hhex hf
        · rcases ht with _ | ⟨_, ht⟩
          · exact not_contains_lit_hex _ _ "FAKE" 'F' (by decide) (by decide)
              (by decide) hhex hf
          · cases ht
      · intro hb
        cases hb
  case bearer =>
    have hts : tokenStrings (TrapsApi._generate_auth_token p token_id time_str)
        = ["sk-sundew-FAKE-" ++ TrapsApi._generate_canary p ("auth:" ++ token_id)] := by
      simp only [TrapsApi._generate_auth_token, h]
      rfl
    rw [hts]
    refine ⟨?_, ?_⟩
    · intro t ht
      rcases ht with _ | ⟨_, ht⟩
      · exact contains_append_right _ _
      · cases ht
    · exact ⟨fun _ => rfl, fun _ =>
        ⟨_, List.mem_cons_self _ _, contains_fake_bearer _⟩⟩
  case api_key_header =>
    have hts : tokenStrings (TrapsApi._generate_auth_token p token_id time_str)
        = ["ak_" ++ TrapsApi._generate_canary p ("auth:" ++ token_id)] := by
      simp only [TrapsApi._generate_auth_token, h]
      rfl
    rw [hts]
    refine ⟨?_, ?_⟩
    · intro t ht
      rcases ht with _ | ⟨_, ht⟩
      · exact contains_append_right _ _
      · cases ht
    · constructor
      · rintro ⟨t, ht, hf⟩
        exfalso
        rcases ht with _ | ⟨_, ht⟩
        · exact not_contains_lit_hex _ _ "FAKE" 'F' (by decide) (by decide)
            (by decide) hhex hf
        · cases ht
      · intro hb
        cases hb
  case api_key_query =>
    have hts : tokenStrings (TrapsApi._generate_auth_token p token_id time_str)
        = ["ak_" ++ TrapsApi._generate_canary p ("auth:" ++ token_id)] := by
      simp only [TrapsApi._generate_auth_token, h]
      rfl
    rw [hts]
    refine ⟨?_, ?_⟩
    · intro t ht
      rcases ht with _ | ⟨_, ht⟩
      · exact contains_append_right _ _
      · cases ht
    · constructor
      · rintro ⟨t, ht, hf⟩
        exfalso
        rcases ht with _ | ⟨_, ht⟩
        · exact not_contains_lit_hex _ _ "FAKE" 'F' (by decide) (by decide)
            (by decide) hhex hf
        · cases ht
      · intro hb
        cases hb
  case basic =>
    have hts : tokenStrings (TrapsApi._generate_auth_token p token_id time_str)
        = ["sess_" ++ TrapsApi._generate_canary p ("auth:" ++ token_id)] := by
      simp only [TrapsApi._generate_auth_token, h]
      rfl
    rw [hts]
    refine ⟨?_, ?_⟩
    · intro t ht
      rcases ht with _ | ⟨_, ht⟩
      · exact contains_append_right _ _
      · cases ht
    · constructor
      · rintro ⟨t, ht, hf⟩
        exfalso
        rcases ht with _ | ⟨_, ht⟩
        · exact not_contains_lit_hex _ _ "FAKE" 'F' (by decide) (by decide)
            (by decide) hhex hf
        · cases ht
      · intro hb
        cases hb

/-- Witness for C4's amended statement at a concrete bearer persona. -/
theorem auth_token_canary_and_fake_witness :
    ∃ t ∈ tokenStrings (TrapsApi._generate_auth_token personaBearer
      "cafebabe" "2026-01-01T00:00:00Z"), strContainsP t "FAKE" :=
  (auth_token_canary_and_fake personaBearer "cafebabe"
    "2026-01-01T00:00:00Z").2.mpr rfl

/-- Helper: any HTTP response `mcp_dispatch` produces has status 200. -/
theorem mcp_dispatch_status (persona : Persona) (req_id : JVal) (m : String)
    (params : JVal) (render : String → String) (st : Nat) (b : JVal)
    (h : mcp_dispatch persona req_id m params render = MCPAnswer.resp st b) :
    st = 200 := by
  unfold mcp_dispatch at h
  split_ifs at h
  · injection h with h1 _
    exact h1.symm
  · injection h with h1 _
    exact h1.symm
  · injection h with h1 _
    exact h1.symm
  · cases hr : _handle_tools_call persona req_id params render with
    | ok v =>
        rw [hr] at h
        injection h with h1 _
        exact h1.symm
    | raised =>
        rw [hr] at h
        cases h
  · injection h with h1 _
    exact h1.symm

/-- C5 counterexample: a `tools/call` request whose `params` is not a JSON
object makes the handler raise (`params.get` on a non-dict), so the
framework answers HTTP 500, not 200 — the claim that every response from
POST /mcp has status 200 fails. -/
theorem mcp_tools_call_params_crash :
    mcp_endpoint personaOauth (some (JVal.obj
      [("jsonrpc", JVal.str "2.0"), ("id", JVal.num 1),
       ("method", JVal.str "tools/call"), ("params", JVal.num 5)]))
      (fun _ => "") = MCPAnswer.raised := rfl

/-- C5 as amended: except for `tools/call` requests whose `params` is not an
object or whose `name` is not a string (and unhashable `method` values),
which raise inside the handler, every `/mcp` response has HTTP status 200
and the JSON-RPC envelope carries the error: `-32700` with id null for a
malformed body, `-32600` with id null for a non-object body, `-32601` for an
unknown method, and `-32602` for a `tools/call` naming a tool outside the
persona's industry tool set. -/
theorem mcp_endpoint_spec (persona : Persona) (render : String → String) :
    mcp_endpoint persona none render
      = MCPAnswer.resp 200 (_make_jsonrpc_error JVal.null (-32700) "Parse error")
  ∧ (∀ b : JVal, (∀ kvs, b ≠ JVal.obj kvs) →
      mcp_endpoint persona (some b) render
        = MCPAnswer.resp 200 (_make_jsonrpc_error JVal.null (-32600) "Invalid Request"))
  ∧ (∀ kvs v, (dictGet kvs "method").getD (JVal.str "") = v →
      isHashable v = true →
      (∀ m, v = JVal.str m →
        m ∉ ["initialize", "notifications/initialized", "tools/list", "tools/call"]) →
      ∃ msg, mcp_endpoint persona (some (JVal.obj kvs)) render
        = MCPAnswer.resp 200 (_make_jsonrpc_error
            ((dictGet kvs "id").getD JVal.null) (-32601) msg))
  ∧ (∀ kvs pkvs name,
      (dictGet kvs "method").getD (JVal.str "") = JVal.str "tools/call" →
      (dictGet kvs "params").getD (JVal.obj []) = JVal.obj pkvs →
      (dictGet pkvs "name").getD (JVal.str "") = JVal.str name →
      (if pyStartswith name persona.mcp_tool_prefix then
          pyDrop name persona.mcp_tool_prefix.length else name)
        ∉ _TOOL_DEFS_names persona.industry →
      mcp_endpoint persona (some (JVal.obj kvs)) render
        = MCPAnswer.resp 200 (_make_jsonrpc_error
            ((dictGet kvs "id").getD JVal.null) (-32602)
            ("Unknown tool: " ++ name)))
  ∧ (∀ body st b, mcp_endpoint persona body render = MCPAnswer.resp st b →
      st = 200) := by
  refine ⟨rfl, ?_, ?_, ?_, ?_⟩
  · intro b hb
    cases b with
    | obj kvs => exact absurd rfl (hb kvs)
    | null => rfl
    | bool x => rfl
    | num q => rfl
    | str s => rfl
    | arr xs => rfl
  · intro kvs v hv hhash hnstr
    cases v with
    | str m =>
        have hne := hnstr m rfl
        simp only [List.mem_cons, List.not_mem_nil, or_false, not_or] at hne
        obtain ⟨h1, h2, h3, h4⟩ := hne
        refine ⟨"Method not found: " ++ m, ?_⟩
        simp only [mcp_endpoint]
        rw [hv]
        simp only [mcp_route]
        unfold mcp_dispatch
        rw [if_neg h2, if_neg h1, if_neg h3, if_neg h4]
    | arr xs => cases hhash
    | obj okvs => cases hhash
    | null =>
        refine ⟨"Method not found: " ++ pyShow JVal.null, ?_⟩
        simp only [mcp_endpoint]
        rw [hv]
        rfl
    | bool x =>
        refine ⟨"Method not found: " ++ pyShow (JVal.bool x), ?_⟩
        simp only [mcp_endpoint]
        rw [hv]
        rfl
    | num q =>
        refine ⟨"Method not found: " ++ pyShow (JVal.num q), ?_⟩
        simp only [mcp_endpoint]
        rw [hv]
        rfl
  · intro kvs pkvs name hm hp hn hnot
    simp only [mcp_endpoint]
    rw [hm]
    simp only [mcp_route]
    unfold mcp_dispatch
    rw [if_neg (by decide : ¬("tools/call" = "notifications/initialized")),
        if_neg (by decide : ¬("tools/call" = "initialize")),
        if_neg (by decide : ¬("tools/call" = "tools/list")),
        if_pos (rfl : "tools/call" = "tools/call")]
    rw [hp]
    simp only [_handle_tools_call]
    rw [hn]
    simp only [_tools_call_name]
    rw [if_neg hnot]
  · intro body st b h
    cases body with
    | none =>
        injection h with h1 _
        exact h1.symm
    | some bv =>
      cases bv with
      | obj kvs =>
          simp only [mcp_endpoint] at h
          cases hv : (dictGet kvs "method").getD (JVal.str "") with
          | str m =>
              rw [hv] at h
              simp only [mcp_route] at h
              exact mcp_dispatch_status persona _ m _ render st b h
          | arr xs =>
              rw [hv] at h
              simp only [mcp_route] at h
              cases h
          | obj okvs =>
              rw [hv] at h
              simp only [mcp_route] at h
              cases h
          | null =>
              rw [hv] at h
              simp only [mcp_route] at h
              injection h with h1 _
              exact h1.symm
          | bool x =>
              rw [hv] at h
              simp only [mcp_route] at h
              injection h with h1 _
              exact h1.symm
          | num q =>
              rw [hv] at h
              simp only [mcp_route] at h
              injection h with h1 _
              exact h1.symm
      | null =>
          injection h with h1 _
          exact h1.symm
      | bool x =>
          injection h with h1 _
          exact h1.symm
      | num q =>
          injection h with h1 _
          exact h1.symm
      | str s =>
          injection h with h1 _
          exact h1.symm
      | arr xs =>
          injection h with h1 _
          exact h1.symm

/-- Witness for C5's amended statement: each envelope case at a concrete
request. -/
theorem mcp_endpoint_spec_witness :
    mcp_endpoint personaOauth none (fun _ => "")
      = MCPAnswer.resp 200 (_make_jsonrpc_error JVal.null (-32700) "Parse error")
  ∧ mcp_endpoint personaOauth (some (JVal.str "nope")) (fun _ => "")
      = MCPAnswer.resp 200 (_make_jsonrpc_error JVal.null (-32600) "Invalid Request")
  ∧ (∃ msg, mcp_endpoint personaOauth (some (JVal.obj
        [("id", JVal.num 7), ("method", JVal.str "frobnicate")])) (fun _ => "")
      = MCPAnswer.resp 200 (_make_jsonrpc_error
          ((dictGet [("id", JVal.num 7), ("method", JVal.str "frobnicate")]
            "id").getD JVal.null) (-32601) msg))
  ∧ mcp_endpoint personaOauth (some (JVal.obj
        [("method", JVal.str "tools/call"),
         ("params", JVal.obj [("name", JVal.str "unknown_tool")])])) (fun _ => "")
      = MCPAnswer.resp 200 (_make_jsonrpc_error
          ((dictGet [("method", JVal.str "tools/call"),
            ("params", JVal.obj [("name", JVal.str "unknown_tool")])]
            "id").getD JVal.null) (-32602) ("Unknown tool: " ++ "unknown_tool")) := by
  refine ⟨(mcp_endpoint_spec personaOauth (fun _ => "")).1, ?_, ?_, ?_⟩
  · exact (mcp_endpoint_spec personaOauth (fun _ => "")).2.1 (JVal.str "nope")
      (fun kvs h => JVal.noConfusion h)
  · exact (mcp_endpoint_spec personaOauth (fun _ => "")).2.2.1
      [("id", JVal.num 7), ("method", JVal.str "frobnicate")]
      (JVal.str "frobnicate") rfl rfl
      (fun m hm => by cases hm; decide)
  · exact (mcp_endpoint_spec personaOauth (fun _ => "")).2.2.2.1
      [("method", JVal.str "tools/call"),
       ("params", JVal.obj [("name", JVal.str "unknown_tool")])]
      [("name", JVal.str "unknown_tool")] "unknown_tool" rfl rfl rfl (by decide)

/-- Helper: whatever the fold of `pickLatest` returns came from the
accumulator or from the list. -/
theorem pickLatest_mem : ∀ (l : List Session) (acc : Option Session)
    (s : Session), l.foldl pickLatest acc = some s → acc = some s ∨ s ∈ l := by
  intro l
  induction l with
  | nil => intro acc s h; exact Or.inl h
  | cons x xs ih =>
      intro acc s h
      rw [List.foldl_cons] at h
      rcases ih (pickLatest acc x) s h with h' | h'
      · cases acc with
        | none =>
            simp only [pickLatest] at h'
            injection h' with h''
            exact Or.inr (h'' ▸ List.mem_cons_self x xs)
        | some b =>
            simp only [pickLatest] at h'
            by_cases hlt : b.last_seen < x.last_seen
            · rw [if_pos hlt] at h'
              injection h' with h''
              exact Or.inr (h'' ▸ List.mem_cons_self x xs)
            · rw [if_neg hlt] at h'
              exact Or.inl h'
      · exact Or.inr (List.mem_cons_of_mem x h')

/-- Helper: the session the `LIMIT 1` query returns is a stored session of
the queried IP. -/
theorem latest_session_mem {rows : List Session} {ip : String} {s : Session}
    (h : latest_session_for rows ip = some s) : s ∈ rows ∧ s.source_ip = ip := by
  unfold latest_session_for at h
  rcases pickLatest_mem _ none s h with h' | h'
  · exact Option.noConfusion h'
  · have hf := List.mem_filter.mp h'
    exact ⟨hf.1, by simpa using hf.2⟩

/-- Helper: a freshly created session whose id is unused lands in the
session table that `save_session` produces. -/
theorem fresh_session_persisted (rows : List Session) (ip : String) (now : ℚ)
    (freshId : String) (hfresh : ∀ r ∈ rows, r.id ≠ freshId) :
    newSession freshId ip now ∈ save_session_db rows (newSession freshId ip now) := by
  unfold save_session_db
  have hany : rows.any (fun r => r.id = (newSession freshId ip now).id) = false := by
    rw [List.any_eq_false]
    intro r hr
    simpa using hfresh r hr
  rw [if_neg (by simp [hany])]
  exact List.mem_append_right rows (List.mem_singleton.mpr rfl)

/-- C6: when the most recent stored session for the IP exists, it is
returned exactly when its `last_seen` is strictly less than 3600 seconds in
the past (and the table is unchanged); otherwise — at 3600 or more, or with
no stored session — a fresh session for that IP is created, persisted and
returned.  `freshId` is the new uuid, assumed unused. -/
theorem get_or_create_session_spec (rows : List Session) (ip : String)
    (now : ℚ) (freshId : String) (hfresh : ∀ r ∈ rows, r.id ≠ freshId) :
    (∀ s, latest_session_for rows ip = some s →
      (((get_or_create_session rows ip now freshId).1 = s
          ↔ now - s.last_seen < 3600)
      ∧ (now - s.last_seen < 3600 →
          get_or_create_session rows ip now freshId = (s, rows))
      ∧ (3600 ≤ now - s.last_seen →
          get_or_create_session rows ip now freshId
            = (newSession freshId ip now,
               save_session_db rows (newSession freshId ip now))
        ∧ (newSession freshId ip now).source_ip = ip
        ∧ newSession freshId ip now
            ∈ save_session_db rows (newSession freshId ip now))))
  ∧ (latest_session_for rows ip = none →
      get_or_create_session rows ip now freshId
        = (newSession freshId ip now,
           save_session_db rows (newSession freshId ip now))
      ∧ newSession freshId ip now
          ∈ save_session_db rows (newSession freshId ip now)) := by
  constructor
  · intro s hs
    have hmem := latest_session_mem hs
    simp only [get_or_create_session]
    rw [hs]
    simp only [get_or_create_aux]
    by_cases hage : now - s.last_seen < 3600
    · rw [if_pos hage]
      exact ⟨⟨fun _ => hage, fun _ => rfl⟩, fun _ => rfl,
        fun hge => absurd hage (not_lt.mpr hge)⟩
    · rw [if_neg hage]
      have hne : (newSession freshId ip now : Session) ≠ s := by
        intro he
        exact hfresh s hmem.1 (congrArg Session.id he).symm
      exact ⟨⟨fun hr => absurd hr hne, fun hlt => absurd hlt hage⟩,
        fun hlt => absurd hlt hage,
        fun _ => ⟨rfl, rfl, fresh_session_persisted rows ip now freshId hfresh⟩⟩
  · intro hs
    simp only [get_or_create_session]
    rw [hs]
    exact ⟨rfl, fresh_session_persisted rows ip now freshId hfresh⟩

/-- Witness for C6 at the claimed boundary: 3599 s after `last_seen`
reuses the stored session, 3601 s after creates a fresh one. -/
theorem get_or_create_session_spec_witness :
    (get_or_create_session [sessionOld] "203.0.113.5" 3599 "sNew").1 = sessionOld
  ∧ (get_or_create_session [sessionOld] "203.0.113.5" 3601 "sNew").1
      = newSession "sNew" "203.0.113.5" 3601 := by
  have hfresh : ∀ r ∈ [sessionOld], r.id ≠ "sNew" := by
    intro r hr
    rw [List.mem_singleton] at hr
    subst hr
    decide
  constructor
  · exact ((get_or_create_session_spec [sessionOld] "203.0.113.5" 3599 "sNew"
      hfresh).1 sessionOld rfl).1.mpr (by norm_num [sessionOld])
  · have h := ((get_or_create_session_spec [sessionOld] "203.0.113.5" 3601 "sNew"
      hfresh).1 sessionOld rfl).2.2 (by norm_num [sessionOld])
    rw [h.1]

/-- C7 counterexample: an event whose parsed JSON body is the empty object
is saved with a NULL `body_json` column (`{}` is falsy in Python), so
loading it back yields `body_json = None`, not the original value. -/
theorem event_roundtrip_empty_json_lost :
    eventEmptyJson.body_json = some []
  ∧ (_row_to_event (save_event_row eventEmptyJson)).body_json = none
  ∧ _row_to_event (save_event_row eventEmptyJson) ≠ eventEmptyJson := by
  refine ⟨rfl, rfl, ?_⟩
  intro h
  have hb := congrArg RequestEvent.body_json h
  exact Option.noConfusion hb

/-- C7 as amended: saving then loading a session restores every field, and
saving then loading an event restores every field provided `body_json` is
not the empty JSON object (an empty object is loaded back as `None`). -/
theorem storage_roundtrip :
    (∀ s : Session, _row_to_session (save_session_row s) = s)
  ∧ (∀ e : RequestEvent, e.body_json ≠ some [] →
      _row_to_event (save_event_row e) = e) := by
  constructor
  · intro s
    rfl
  · intro e h
    cases e with
    | mk id ts sid sip sp m pa qp hd bd bj ct ua fs cl tt me rs nt =>
        simp only [save_event_row, _row_to_event, RequestEvent.mk.injEq,
          and_true, true_and]
        cases bj with
        | none => rfl
        | some j =>
            cases j with
            | nil => exact absurd rfl h
            | cons a l => rfl

/-- Witness for C7's amended statement at a concrete session and event. -/
theorem storage_roundtrip_witness :
    _row_to_session (save_session_row sessionOld) = sessionOld
  ∧ _row_to_event (save_event_row eventPlain) = eventPlain :=
  ⟨storage_roundtrip.1 sessionOld,
   storage_roundtrip.2 eventPlain (fun h => Option.noConfusion h)⟩

/-- C1: for all five signal scores in `[0,1]`, `compute_composite_score`
returns exactly the fixed weighted sum `0.15·T + 0.20·P + 0.20·H + 0.20·L
+ 0.25·M`, which the clamp to `[0,1]` leaves unchanged, and the result lies
in `[0,1]` (float arithmetic modelled exactly over `ℚ`). -/
theorem compute_composite_score_spec (t p h l m : ℚ)
    (ht0 : 0 ≤ t) (ht1 : t ≤ 1) (hp0 : 0 ≤ p) (hp1 : p ≤ 1)
    (hh0 : 0 ≤ h) (hh1 : h ≤ 1) (hl0 : 0 ≤ l) (hl1 : l ≤ 1)
    (hm0 : 0 ≤ m) (hm1 : m ≤ 1) :
    compute_composite_score t p h l m
      = 15/100 * t + 20/100 * p + 20/100 * h + 20/100 * l + 25/100 * m
    ∧ 0 ≤ compute_composite_score t p h l m
    ∧ compute_composite_score t p h l m ≤ 1 := by
  have hraw0 : (0:ℚ) ≤ 15/100 * t + 20/100 * p + 20/100 * h + 20/100 * l
      + 25/100 * m := by
    have h1 := mul_nonneg (by norm_num : (0:ℚ) ≤ 15/100) ht0
    have h2 := mul_nonneg (by norm_num : (0:ℚ) ≤ 20/100) hp0
    have h3 := mul_nonneg (by norm_num : (0:ℚ) ≤ 20/100) hh0
    have h4 := mul_nonneg (by norm_num : (0:ℚ) ≤ 20/100) hl0
    have h5 := mul_nonneg (by norm_num : (0:ℚ) ≤ 25/100) hm0
    linarith
  have hraw1 : 15/100 * t + 20/100 * p + 20/100 * h + 20/100 * l + 25/100 * m
      ≤ (1:ℚ) := by
    have h1 := mul_le_mul_of_nonneg_left ht1 (by norm_num : (0:ℚ) ≤ 15/100)
    have h2 := mul_le_mul_of_nonneg_left hp1 (by norm_num : (0:ℚ) ≤ 20/100)
    have h3 := mul_le_mul_of_nonneg_left hh1 (by norm_num : (0:ℚ) ≤ 20/100)
    have h4 := mul_le_mul_of_nonneg_left hl1 (by norm_num : (0:ℚ) ≤ 20/100)
    have h5 := mul_le_mul_of_nonneg_left hm1 (by norm_num : (0:ℚ) ≤ 25/100)
    linarith
  have heq : compute_composite_score t p h l m
      = 15/100 * t + 20/100 * p + 20/100 * h + 20/100 * l + 25/100 * m := by
    unfold compute_composite_score
    show max 0 (min 1 (15/100 * t + 20/100 * p + 20/100 * h + 20/100 * l
      + 25/100 * m)) = _
    rw [min_eq_right hraw1, max_eq_right hraw0]
  exact ⟨heq, heq ▸ hraw0, heq ▸ hraw1⟩

/-- Witness for C1 at a concrete point. -/
theorem compute_composite_score_spec_witness :
    compute_composite_score 1 (1/2) 0 (1/2) 1
      = 15/100 * 1 + 20/100 * (1/2) + 20/100 * 0 + 20/100 * (1/2) + 25/100 * 1
    ∧ 0 ≤ compute_composite_score 1 (1/2) 0 (1/2) 1
    ∧ compute_composite_score 1 (1/2) 0 (1/2) 1 ≤ 1 :=
  compute_composite_score_spec 1 (1/2) 0 (1/2) 1
    (by norm_num) (by norm_num) (by norm_num) (by norm_num) (by norm_num)
    (by norm_num) (by norm_num) (by norm_num) (by norm_num) (by norm_num)

/-- C2: `classify` maps `[0, 0.3)` to human, `[0.3, 0.6)` to automated,
`[0.6, 0.8)` to ai_assisted, `[0.8, 1]` to ai_agent, and fails with a range
error outside `[0, 1]`. -/
theorem classify_spec (c : ℚ) :
    (0 ≤ c → c < 3/10 → classify c = Except.ok AttackClassification.human)
  ∧ (3/10 ≤ c → c < 6/10 → classify c = Except.ok AttackClassification.automated)
  ∧ (6/10 ≤ c → c < 8/10 → classify c = Except.ok AttackClassification.ai_assisted)
  ∧ (8/10 ≤ c → c ≤ 1 → classify c = Except.ok AttackClassification.ai_agent)
  ∧ ((c < 0 ∨ 1 < c) → ∃ msg, classify c = Except.error msg) := by
  refine ⟨?_, ?_, ?_, ?_, ?_⟩
  · intro h0 h3
    have hnot : ¬(c < 0 ∨ c > 1) := by push_neg; exact ⟨h0, by linarith⟩
    unfold classify
    rw [if_neg hnot, if_pos h3]
  · intro h3 h6
    have hnot : ¬(c < 0 ∨ c > 1) := by push_neg; exact ⟨by linarith, by linarith⟩
    unfold classify
    rw [if_neg hnot, if_neg (not_lt.mpr h3), if_pos h6]
  · intro h6 h8
    have hnot : ¬(c < 0 ∨ c > 1) := by push_neg; exact ⟨by linarith, by linarith⟩
    unfold classify
    rw [if_neg hnot, if_neg (not_lt.mpr (by linarith : (3:ℚ)/10 ≤ c)),
      if_neg (not_lt.mpr h6), if_pos h8]
  · intro h8 h1
    have hnot : ¬(c < 0 ∨ c > 1) := by push_neg; exact ⟨by linarith, h1⟩
    unfold classify
    rw [if_neg hnot, if_neg (not_lt.mpr (by linarith : (3:ℚ)/10 ≤ c)),
      if_neg (not_lt.mpr (by linarith : (6:ℚ)/10 ≤ c)),
      if_neg (not_lt.mpr h8)]
  · intro h
    exact ⟨"Composite score must be between 0.0 and 1.0, got " ++ toString c, by
      unfold classify
      rw [if_pos h]⟩

/-- C9 counterexample: the discovery manifest is identical for personas
differing only in `auth_scheme` — with the basic scheme its authentication
object still reads `type = "bearer"` — so the authentication object is not
built from `persona.auth_scheme`. -/
theorem mcp_discovery_auth_ignores_scheme :
    _build_mcp_discovery { personaOauth with auth_scheme := AuthScheme.basic }
      = _build_mcp_discovery personaOauth
  ∧ jGet (_build_mcp_discovery
        { personaOauth with auth_scheme := AuthScheme.basic }) "authentication"
      = some (JVal.obj [("type", JVal.str "bearer"),
          ("token_url",
           JVal.str "https://api.novalabs.example.com/api/v1/auth/token")]) :=
  ⟨rfl, rfl⟩

/-- C9 as amended: for every persona, `/.well-known/mcp.json` carries
`mcp_version = 2024-11-05`, a server object with the persona's MCP server
name, a version and a description, an `endpoints.jsonrpc` URL ending in
`/mcp`, capabilities `{tools: true, resources: false, prompts: false}`, and
a fixed bearer authentication object whose token URL sits under the
persona's endpoint prefix — independent of `persona.auth_scheme`. -/
theorem mcp_discovery_spec (persona : Persona) :
    jGet (_build_mcp_discovery persona) "mcp_version"
      = some (JVal.str "2024-11-05")
  ∧ jGet (_build_mcp_discovery persona) "server"
      = some (JVal.obj [("name", JVal.str persona.mcp_server_name),
          ("version", JVal.str "1.2.0"),
          ("description", JVal.str (persona.company_name ++ " internal "
            ++ persona.data_theme
            ++ " service accessible via Model Context Protocol."))])
  ∧ jGet (_build_mcp_discovery persona) "endpoints"
      = some (JVal.obj [("jsonrpc",
          JVal.str ("https://api." ++ _company_domain persona ++ "/mcp"))])
  ∧ jGet (_build_mcp_discovery persona) "capabilities"
      = some (JVal.obj [("tools", JVal.bool true),
          ("resources", JVal.bool false), ("prompts", JVal.bool false)])
  ∧ jGet (_build_mcp_discovery persona) "authentication"
      = some (JVal.obj [("type", JVal.str "bearer"),
          ("token_url", JVal.str ("https://api." ++ _company_domain persona
            ++ rstripSlash persona.endpoint_prefix ++ "/auth/token"))])
  ∧ (∀ scheme, _build_mcp_discovery { persona with auth_scheme := scheme }
      = _build_mcp_discovery persona) :=
  ⟨rfl, rfl, rfl, rfl, rfl, fun _ => rfl⟩

/-- C10: `generate_persona` is deterministic — all randomness flows through
the `random.Random(seed)` stream, modelled as the pure function `g` of the
seed, so equal seeds yield personas identical in every field; the persona
also records the seed it was generated from. -/
theorem generate_persona_deterministic (g : Int → Nat → Nat) (s1 s2 : Int)
    (h : s1 = s2) :
    generate_persona g s1 = generate_persona g s2
  ∧ (generate_persona g s1).seed = s1 := by
  subst h
  exact ⟨rfl, rfl⟩

/-- Witness for C10 at seed 42 with a concrete entropy stream. -/
theorem generate_persona_deterministic_witness :
    generate_persona (fun s n => s.natAbs + n) 42
      = generate_persona (fun s n => s.natAbs + n) 42
  ∧ (generate_persona (fun s n => s.natAbs + n) 42).seed = 42 :=
  generate_persona_deterministic (fun s n => s.natAbs + n) 42 42 rfl

/-- Witness for C2 at the boundary points `0`, `0.3`, `0.6`, `0.8` and at an
out-of-range input. -/
theorem classify_spec_witness :
    classify 0 = Except.ok AttackClassification.human
  ∧ classify (3/10) = Except.ok AttackClassification.automated
  ∧ classify (6/10) = Except.ok AttackClassification.ai_assisted
  ∧ classify (8/10) = Except.ok AttackClassification.ai_agent
  ∧ ∃ msg, classify 2 = Except.error msg :=
  ⟨(classify_spec 0).1 (le_refl 0) (by norm_num),
   (classify_spec (3/10)).2.1 (le_refl _) (by norm_num),
   (classify_spec (6/10)).2.2.1 (le_refl _) (by norm_num),
   (classify_spec (8/10)).2.2.2.1 (le_refl _) (by norm_num),
   (classify_spec 2).2.2.2.2 (Or.inr (by norm_num))⟩

end Sundew
